import Mathlib

set_option autoImplicit false

/-!
Shallow embedding of `vfuse/server/server.go`: the FUSE relay filesystem
that forwards every filesystem operation to a remote client over a single
connection.  Machine integers are modelled as `Nat`/`Int` with explicit
`% 2 ^ w` where overflow matters (the uint64 request-id counter); Go code
that can panic (nil-pointer dereference) is modelled as `Except GoPanic`.
-/

/-- fuse.Status values returned by the relay handlers (go-fuse).  The
constructor `EIO'` stands for the generic I/O-error status `fuse.EIO`
(primed to keep the name lexer-friendly). -/
inductive Status where
  | OK
  | ENOENT
  | EROFS
  | ENOTDIR
  | EIO'
  deriving DecidableEq, Repr

/-- Modelled from the spec: the optional Error record carried by every
response message.  The protobuf message definitions (package `vfuse/pb`)
are not under src/; per the spec the record is a closed set of reasons
(not-found, read-only-violation, not-a-directory).  Proto2 optional bool
fields are `Option Bool`; the generated getters return the field value,
or `false` when the field is unset. -/
structure PbError where
  notExist : Option Bool
  readOnly : Option Bool
  notDir : Option Bool
  deriving DecidableEq, Repr

/-- Proto2 getter `GetNotExist`: field value or `false` when unset. -/
def PbError.getNotExist (e : PbError) : Bool := e.notExist.getD false

/-- Proto2 getter `GetReadOnly`: field value or `false` when unset. -/
def PbError.getReadOnly (e : PbError) : Bool := e.readOnly.getD false

/-- Proto2 getter `GetNotDir`: field value or `false` when unset. -/
def PbError.getNotDir (e : PbError) : Bool := e.notDir.getD false

/-- `fuseError` from server.go lines 31-46: maps a response's Error record
to a fuse.Status.  `none` models a nil `*pb.Error` pointer. -/
def fuseError : Option PbError → Status
  | none => .OK
  | some err =>
    if err.getNotExist then .ENOENT
    else if err.getReadOnly then .EROFS
    else if err.getNotDir then .ENOTDIR
    else .EIO'

/-- Transcription of the spec's error-mapping table (section 4.6 and the
testable-properties list), reasons checked in the order the table lists
them: not-found maps to ENOENT, read-only-violation to EROFS,
not-a-directory to ENOTDIR, a non-null Error with none of these reasons
set to the generic I/O-error status, and an absent Error record to
success. -/
def specErrorTable : Option PbError → Status
  | none => .OK
  | some err =>
    if err.getNotExist then .ENOENT
    else if err.getReadOnly then .EROFS
    else if err.getNotDir then .ENOTDIR
    else .EIO'

/-- A Go runtime panic observable in the embedded code (nil-pointer
dereference). -/
inductive GoPanic where
  | nilDereference
  deriving DecidableEq, Repr

/-- Result of running a Go code path that may panic. -/
abbrev GoResult (α : Type) := Except GoPanic α

/-- The two observations the embedding makes of a Go `time.Time` value:
`t.Unix()` and `t.Nanosecond()`. -/
structure GoTime where
  unix : Int
  nanosecond : Int
  deriving DecidableEq, Repr

/-- Modelled from the spec: the wire timestamp message `pb.Time` with its
two always-present fields (seconds, nanoseconds). -/
structure PbTime where
  sec : Option Int
  nsec : Option Int
  deriving DecidableEq, Repr

/-- Go conversion `int32(n)`: wrap into the signed 32-bit range (the
literals are `2 ^ 31` and `2 ^ 32`). -/
def int32cast (n : Int) : Int := (n + 2147483648) % 4294967296 - 2147483648

/-- `pbTime` from server.go lines 48-52.  The Go parameter is a
`*time.Time`; the body immediately calls `t.Unix()`, which dereferences
the pointer, so a nil argument is a nil-pointer panic. -/
def pbTime : Option GoTime → GoResult PbTime
  | none => .error .nilDereference
  | some t => .ok { sec := some t.unix, nsec := some (int32cast t.nanosecond) }

/-- Modelled from the spec: the `pb.UtimeRequest` message with name and
the two timestamp fields. -/
structure UtimeRequest where
  name : Option String
  atime : Option PbTime
  mtime : Option PbTime
  deriving DecidableEq, Repr

/-- Request construction performed by `(*FS).Utimens` (server.go lines
372-378): the `pb.UtimeRequest` literal evaluates `pbTime(atime)` and
then `pbTime(mtime)`. -/
def utimensRequest (name : String) (atime mtime : Option GoTime) :
    GoResult UtimeRequest := do
  let a ← pbTime atime
  let m ← pbTime mtime
  return { name := some name, atime := some a, mtime := some m }

/-- Modelled from the spec: the attribute payload of `pb.AttrResponse`
(size and mode, proto2 optional with getters defaulting to 0). -/
structure PbAttr where
  size : Option Nat
  mode : Option Nat
  deriving DecidableEq, Repr

/-- Modelled from the spec: one directory entry of `pb.ReaddirResponse`
(name and mode, proto2 optional). -/
structure PbDirEntry where
  name : Option String
  mode : Option Nat
  deriving DecidableEq, Repr

/-- The go-fuse attribute struct, restricted to the fields server.go
fills in (`fuse.Attr`); unset fields are zero. -/
structure FuseAttr where
  size : Nat
  mode : Nat
  nlink : Nat
  blksize : Nat
  blocks : Nat
  deriving DecidableEq, Repr

/-- go-fuse directory entry (`fuse.DirEntry`). -/
structure FuseDirEntry where
  name : String
  mode : Nat
  deriving DecidableEq, Repr

/-- Modelled from the spec: the closed set of typed response message
kinds a packet body can carry (`proto.Message` in the Go code); every
response carries an optional Error record plus its operation-specific
payload. -/
inductive Msg where
  | attrResponse (err : Option PbError) (attr : Option PbAttr)
  | chmodResponse (err : Option PbError)
  | mkdirResponse (err : Option PbError)
  | rmdirResponse (err : Option PbError)
  | openResponse (err : Option PbError) (handle : Option Nat)
  | readdirResponse (err : Option PbError) (entry : List PbDirEntry)
  | readResponse (err : Option PbError) (data : List Nat)
  | readlinkResponse (err : Option PbError) (target : Option String)
  | renameResponse (err : Option PbError)
  | symlinkResponse (err : Option PbError)
  | unlinkResponse (err : Option PbError)
  | truncateResponse (err : Option PbError)
  | utimeResponse (err : Option PbError)
  | mknodResponse (err : Option PbError)
  | closeResponse (err : Option PbError)
  deriving DecidableEq, Repr

/-- Response handling of `(*FS).Chmod` (server.go lines 177-183) after
the receive: a failed type assertion returns the I/O-error status, else
the Error record is mapped. -/
def chmodRecv : Msg → Status
  | .chmodResponse err => fuseError err
  | _ => .EIO'

/-- Response handling of `(*FS).Mkdir` (server.go lines 241-245): the
type-assertion-failure branch only logs and does not return, so control
falls through to `fuseError(res.Err)` with `res` a nil
`*pb.MkdirResponse`, a nil-pointer dereference. -/
def mkdirRecv : Msg → GoResult Status
  | .mkdirResponse err => .ok (fuseError err)
  | _ => .error .nilDereference

/-- Response handling of `(*FS).Rmdir` (server.go lines 348-352): same
missing `return` as Mkdir, so a wrong-kind response dereferences the nil
`*pb.RmdirResponse`. -/
def rmdirRecv : Msg → GoResult Status
  | .rmdirResponse err => .ok (fuseError err)
  | _ => .error .nilDereference

/-- Response handling of `(*FS).Rename` (server.go lines 332-337). -/
def renameRecv : Msg → Status
  | .renameResponse err => fuseError err
  | _ => .EIO'

/-- Response handling of `(*FS).Symlink` (server.go lines 364-369). -/
def symlinkRecv : Msg → Status
  | .symlinkResponse err => fuseError err
  | _ => .EIO'

/-- Response handling of `(*FS).Unlink` (server.go lines 416-422). -/
def unlinkRecv : Msg → Status
  | .unlinkResponse err => fuseError err
  | _ => .EIO'

/-- Response handling of `(*FS).Truncate` by path and `(*file).Truncate`
by handle (server.go lines 434-440 and 513-518): identical bodies. -/
def truncateRecv : Msg → Status
  | .truncateResponse err => fuseError err
  | _ => .EIO'

/-- Response handling of `(*FS).Utimens` (server.go lines 382-387). -/
def utimeRecv : Msg → Status
  | .utimeResponse err => fuseError err
  | _ => .EIO'

/-- Response handling of `(*FS).Mknod` (server.go lines 400-405). -/
def mknodRecv : Msg → Status
  | .mknodResponse err => fuseError err
  | _ => .EIO'

/-- Response handling of `(*file).Flush` (server.go lines 478-483). -/
def flushRecv : Msg → Status
  | .closeResponse err => fuseError err
  | _ => .EIO'

/-- Response handling of `(*file).Read` (server.go lines 496-501): after
the type assertion the code returns `fuse.ReadResultData(res.Data)` and
`fuse.OK` directly; the Error record of the response is never inspected.
The first component is the returned read-result byte payload (`none`
models the nil `fuse.ReadResult`). -/
def fileReadRecv : Msg → Option (List Nat) × Status
  | .readResponse _err data => (some data, .OK)
  | _ => (none, .EIO')

/-- Response handling of `(*FS).OpenDir` (server.go lines 287-301): a
wrong-kind response returns EIO; otherwise the entry list is decoded via
the proto getters and returned together with `fuseError(res.Err)`. -/
def openDirRecv : Msg → Option (List FuseDirEntry) × Status
  | .readdirResponse err entry =>
    (some (entry.map fun ent => { name := ent.name.getD "", mode := ent.mode.getD 0 }),
     fuseError err)
  | _ => (none, .EIO')

/-- The open-file object `file` (server.go lines 463-469): handle plus
debugging copies of the original name and flags. -/
structure FileObj where
  handle : Nat
  origName : String
  origFlags : Nat
  deriving DecidableEq, Repr

/-- Response handling of `(*FS).Open` (server.go lines 257-275): wrong
kind maps to EIO; an Error record is mapped with no file; otherwise the
file object is built with `res.GetHandle()` (getter default 0) and a
zero handle is rejected with EIO. -/
def openRecv (name : String) (flags : Nat) : Msg → Option FileObj × Status
  | .openResponse err handle =>
    match err with
    | some e => (none, fuseError (some e))
    | none =>
      if handle.getD 0 = 0 then (none, Status.EIO')
      else (some { handle := handle.getD 0, origName := name, origFlags := flags },
            Status.OK)
  | _ => (none, Status.EIO')

/-- The synthetic root attribute returned by `(*FS).GetAttr` for the
empty name (server.go lines 190-198): mode `0755 | S_IFDIR` with
`S_IFDIR = 0x4000`, one link, block size 1024, one block. -/
def rootAttr : FuseAttr :=
  { size := 0, mode := 0o755 ||| 0x4000, nlink := 1, blksize := 1024, blocks := 1 }

/-- What `(*FS).GetAttr` does before any response handling: either answer
locally (the root special case, which returns before `sendPacket` is ever
reached) or send an `pb.AttrRequest` for the name. -/
inductive GetAttrAction where
  | localAnswer (attr : FuseAttr) (st : Status)
  | sendAttrRequest (name : String)
  deriving DecidableEq, Repr

/-- Request phase of `(*FS).GetAttr` (server.go lines 185-201): the empty
name is answered locally with the synthetic root attribute and OK; every
other name sends an AttrRequest to the peer. -/
def getAttrAction (name : String) : GetAttrAction :=
  if name = "" then .localAnswer rootAttr .OK
  else .sendAttrRequest name

/-- Response handling of `(*FS).GetAttr` for a non-root name (server.go
lines 206-229): wrong kind maps to EIO; an Error record is mapped with no
attribute; a missing attribute payload with no Error maps to EIO; else
the attribute is decoded via the proto getters. -/
def getAttrRecv : Msg → Option FuseAttr × Status
  | .attrResponse err attr =>
    match err with
    | some e => (none, fuseError (some e))
    | none =>
      match attr with
      | none => (none, Status.EIO')
      | some a =>
        (some { size := a.size.getD 0, mode := a.mode.getD 0, nlink := 1,
                blksize := 1024, blocks := a.size.getD 0 / 1024 }, Status.OK)
  | _ => (none, Status.EIO')

/-- Lookup in the `res map[uint64]chan<- proto.Message` registry, modelled
as an association list from request id to a channel token. -/
def lookupRes : List (Nat × Nat) → Nat → Option Nat
  | [], _ => none
  | (k, v) :: rest, id => if k = id then some v else lookupRes rest id

/-- `forgetRequestLocked` (server.go lines 164-166): Go's `delete` on the
registry map, removing the key. -/
def eraseRes : List (Nat × Nat) → Nat → List (Nat × Nat)
  | [], _ => []
  | (k, v) :: rest, id =>
    if k = id then eraseRes rest id else (k, v) :: eraseRes rest id

/-- Outcome of one iteration of the read loop on an inbound packet:
either the body is delivered to the registered channel and the loop
continues with the updated registry, or the loop returns (tearing the
connection down) with nothing delivered. -/
inductive ReadLoopStep where
  | delivered (c : Nat) (res : List (Nat × Nat))
  | aborted
  deriving DecidableEq, Repr

/-- One iteration of `(*FS).readFromClient` (server.go lines 142-162)
applied to a decoded packet id: under the mutex the id is looked up; on a
match `forgetRequestLocked` removes the entry and the body is then sent
on the registered channel; with no match the loop logs and returns. -/
def dispatchStep (res : List (Nat × Nat)) (id : Nat) : ReadLoopStep :=
  match lookupRes res id with
  | some c => .delivered c (eraseRes res id)
  | none => .aborted

/-- The mutex-guarded mutable state of `FS` (server.go lines 97-99): the
uint64 id counter and the id-to-channel registry.  `chanCtr` numbers the
channels created by `make(chan proto.Message, 1)` so that distinct calls
yield distinct channel tokens. -/
structure FSState where
  nextid : Nat
  chanCtr : Nat
  res : List (Nat × Nat)
  deriving DecidableEq, Repr

/-- The state built by `newFS` (server.go lines 102-108): counter at zero,
empty registry. -/
def fsInit : FSState := { nextid := 0, chanCtr := 0, res := [] }

/-- `(*FS).nextID` (server.go lines 132-140): under the mutex, make a
fresh capacity-one channel, return the current counter value as the id,
increment the counter (uint64, wrapping at `2 ^ 64`), and register the
channel under the id (Go map assignment replaces any existing entry). -/
def nextID (s : FSState) : Nat × Nat × FSState :=
  (s.nextid, s.chanCtr,
   { nextid := (s.nextid + 1) % 2 ^ 64,
     chanCtr := s.chanCtr + 1,
     res := (s.nextid, s.chanCtr) :: eraseRes s.res s.nextid })

/-- The filesystem state after `k` successive `nextID` calls from the
fresh state. -/
def allocStates : Nat → FSState
  | 0 => fsInit
  | k + 1 => (nextID (allocStates k)).2.2

/-- The id returned by the `k`-th `nextID` call (0-based) on one
filesystem instance. -/
def allocIdAt (k : Nat) : Nat := (nextID (allocStates k)).1

lemma lookupRes_eraseRes_self (r : List (Nat × Nat)) (a : Nat) :
    lookupRes (eraseRes r a) a = none := by
  induction r with
  | nil => rfl
  | cons hd tl ih =>
    obtain ⟨k, v⟩ := hd
    by_cases h : k = a
    · simpa [eraseRes, h] using ih
    · simp [eraseRes, lookupRes, h, ih]

lemma lookupRes_eraseRes_ne (r : List (Nat × Nat)) (a m : Nat) (h : a ≠ m) :
    lookupRes (eraseRes r a) m = lookupRes r m := by
  induction r with
  | nil => rfl
  | cons hd tl ih =>
    obtain ⟨k, v⟩ := hd
    by_cases hk : k = a
    · subst hk
      simp [eraseRes, lookupRes, h, ih]
    · by_cases hm : k = m <;> simp [eraseRes, lookupRes, hk, hm, ih, Ne.symm h]

lemma allocStates_nextid (k : Nat) : (allocStates k).nextid = k % 2 ^ 64 := by
  induction k with
  | zero => rfl
  | succ k ih =>
    show ((allocStates k).nextid + 1) % 2 ^ 64 = (k + 1) % 2 ^ 64
    rw [ih, Nat.mod_add_mod]

lemma allocIdAt_eq (k : Nat) : allocIdAt k = k % 2 ^ 64 := by
  show (allocStates k).nextid = k % 2 ^ 64
  exact allocStates_nextid k

lemma allocStates_lookup_none :
    ∀ k m : Nat, k ≤ 2 ^ 64 → k ≤ m → lookupRes (allocStates k).res m = none := by
  intro k
  induction k with
  | zero => intro m _ _; rfl
  | succ k ih =>
    intro m hk hm
    have hklt : k < 2 ^ 64 := Nat.lt_of_lt_of_le (Nat.lt_succ_self k) hk
    have hid : (allocStates k).nextid = k := by
      rw [allocStates_nextid]; exact Nat.mod_eq_of_lt hklt
    have hne : (allocStates k).nextid ≠ m := by rw [hid]; omega
    show lookupRes
        (((allocStates k).nextid, (allocStates k).chanCtr) ::
          eraseRes (allocStates k).res (allocStates k).nextid) m = none
    rw [lookupRes, if_neg hne, lookupRes_eraseRes_ne _ _ _ hne]
    exact ih m (Nat.le_of_succ_le hk) (Nat.le_of_succ_le hm)

/-- A concrete Error record with only the not-found reason set. -/
def errNotExist : PbError := { notExist := some true, readOnly := none, notDir := none }

/-- C1: for every inbound packet, its id is delivered to the waiting
caller at most once: on a match the registry entry is removed (the
updated registry no longer maps the id, so dispatching the same id again
aborts), and a packet whose id has no registry entry is never delivered
and terminates the read loop. -/
theorem dispatch_at_most_once :
    ∀ (res : List (Nat × Nat)) (id : Nat),
      (∀ c, lookupRes res id = some c →
        dispatchStep res id = ReadLoopStep.delivered c (eraseRes res id) ∧
        lookupRes (eraseRes res id) id = none ∧
        dispatchStep (eraseRes res id) id = ReadLoopStep.aborted) ∧
      (lookupRes res id = none → dispatchStep res id = ReadLoopStep.aborted) := by
  intro res id
  constructor
  · intro c hc
    refine ⟨?_, lookupRes_eraseRes_self res id, ?_⟩
    · unfold dispatchStep
      rw [hc]
    · unfold dispatchStep
      rw [lookupRes_eraseRes_self res id]
  · intro h
    unfold dispatchStep
    rw [h]

theorem dispatch_at_most_once_witness :
    lookupRes [(5, 9)] 5 = some 9 ∧
    (dispatchStep [(5, 9)] 5 = ReadLoopStep.delivered 9 (eraseRes [(5, 9)] 5) ∧
     lookupRes (eraseRes [(5, 9)] 5) 5 = none ∧
     dispatchStep (eraseRes [(5, 9)] 5) 5 = ReadLoopStep.aborted) ∧
    lookupRes [(7, 1)] 3 = none ∧
    dispatchStep [(7, 1)] 3 = ReadLoopStep.aborted :=
  ⟨by decide, (dispatch_at_most_once [(5, 9)] 5).1 9 (by decide),
   by decide, (dispatch_at_most_once [(7, 1)] 3).2 (by decide)⟩

/-- C2 counterexample: because the id counter is a uint64 that wraps at
`2 ^ 64`, the call with index `2 ^ 64` returns the same id as the call
with index `0` on the same filesystem instance, so `nextID` does return
the same id twice for a long enough sequence of allocations. -/
theorem nextID_wraparound_counterexample :
    allocIdAt (2 ^ 64) = allocIdAt 0 ∧ 0 < 2 ^ 64 := by
  constructor
  · rw [allocIdAt_eq, allocIdAt_eq, Nat.mod_self, Nat.zero_mod]
  · positivity

/-- C2 (amended): among the first `2 ^ 64` allocate calls on one
filesystem instance the returned ids are strictly increasing, hence
pairwise distinct, and each such call registers its fresh channel under
an id that has no existing registry entry. -/
theorem nextID_unique_before_wrap :
    (∀ i j : Nat, i < j → j < 2 ^ 64 → allocIdAt i < allocIdAt j) ∧
    (∀ k : Nat, k < 2 ^ 64 → lookupRes (allocStates k).res (allocIdAt k) = none) := by
  constructor
  · intro i j hij hj
    rw [allocIdAt_eq, allocIdAt_eq, Nat.mod_eq_of_lt (Nat.lt_trans hij hj),
      Nat.mod_eq_of_lt hj]
    exact hij
  · intro k hk
    rw [allocIdAt_eq, Nat.mod_eq_of_lt hk]
    exact allocStates_lookup_none k k (Nat.le_of_lt hk) (Nat.le_refl k)

theorem nextID_unique_before_wrap_witness :
    (0 < 1 ∧ (1 : Nat) < 2 ^ 64 ∧ allocIdAt 0 < allocIdAt 1) ∧
    ((1 : Nat) < 2 ^ 64 ∧ lookupRes (allocStates 1).res (allocIdAt 1) = none) :=
  ⟨⟨by decide, by norm_num, nextID_unique_before_wrap.1 0 1 (by decide) (by norm_num)⟩,
   ⟨by norm_num, nextID_unique_before_wrap.2 1 (by norm_num)⟩⟩

/-- C3: evaluation of the code at a kind-mismatched response.  Chmod
(which has the `return fuse.EIO` inside its type-check branch) returns
the I/O-error status as the claim states, but Mkdir and Rmdir are
missing that `return`: they fall through and dereference the nil typed
response pointer, panicking instead of returning the status. -/
theorem mkdir_rmdir_kind_mismatch_panics :
    mkdirRecv (.chmodResponse none) = .error .nilDereference ∧
    rmdirRecv (.chmodResponse none) = .error .nilDereference ∧
    chmodRecv (.mkdirResponse none) = Status.EIO' ∧
    renameRecv (.chmodResponse none) = Status.EIO' ∧
    unlinkRecv (.chmodResponse none) = Status.EIO' ∧
    truncateRecv (.chmodResponse none) = Status.EIO' :=
  ⟨rfl, rfl, rfl, rfl, rfl, rfl⟩

/-- C4: evaluation of the code at responses carrying an Error record.
`(*file).Read` never inspects the Error record of its ReadResponse: it
returns the payload with the success status even though the error
mapping of that record is ENOENT; `(*FS).OpenDir` does map the record to
the error status but still returns the decoded entries alongside it. -/
theorem read_ignores_error_record :
    fileReadRecv (.readResponse (some errNotExist) []) = (some [], Status.OK) ∧
    fuseError (some errNotExist) = Status.ENOENT ∧
    openDirRecv (.readdirResponse (some errNotExist) [{ name := some "x", mode := some 420 }]) =
      (some [{ name := "x", mode := 420 }], Status.ENOENT) :=
  ⟨rfl, rfl, by decide⟩

/-- C5: the error mapping function agrees with the spec's table on every
input, and a non-null Error record always maps to one of the four error
statuses (never to success). -/
theorem fuseError_is_spec_table :
    (∀ e, fuseError e = specErrorTable e) ∧
    (∀ err, fuseError (some err) = Status.ENOENT ∨
      fuseError (some err) = Status.EROFS ∨
      fuseError (some err) = Status.ENOTDIR ∨
      fuseError (some err) = Status.EIO') := by
  constructor
  · intro e
    cases e <;> rfl
  · intro err
    by_cases h1 : err.getNotExist
    · simp [fuseError, h1]
    · by_cases h2 : err.getReadOnly
      · simp [fuseError, h1, h2]
      · by_cases h3 : err.getNotDir <;> simp [fuseError, h1, h2, h3]

/-- C6: for every handle-based read, the byte payload handed back to the
caller is exactly the byte sequence carried in the ReadResponse,
unmodified, whatever its length. -/
theorem read_returns_exact_payload :
    ∀ (err : Option PbError) (data : List Nat),
      fileReadRecv (.readResponse err data) = (some data, Status.OK) := by
  intro err data
  rfl

/-- C7: GetAttr on the empty (root) name never sends a request — it is
answered locally, with success and the synthetic attribute whose mode is
`0755` with the directory bit `S_IFDIR = 0x4000` set. -/
theorem getAttr_root_local :
    getAttrAction "" = GetAttrAction.localAnswer rootAttr Status.OK ∧
    rootAttr.mode = 0o755 ||| 0x4000 ∧
    rootAttr.mode &&& 0x4000 = 0x4000 := by
  refine ⟨?_, rfl, by decide⟩
  rfl

/-- C8: a well-typed OpenResponse with no Error record and handle 0
(including an absent handle field, whose getter yields 0) produces the
I/O-error status and no file object; with a nonzero handle Open returns
the file object carrying that handle, with success. -/
theorem open_zero_handle_eio :
    ∀ (name : String) (flags : Nat) (h : Option Nat),
      (h.getD 0 = 0 →
        openRecv name flags (.openResponse none h) = (none, Status.EIO')) ∧
      (h.getD 0 ≠ 0 →
        openRecv name flags (.openResponse none h) =
          (some { handle := h.getD 0, origName := name, origFlags := flags },
           Status.OK)) := by
  intro name flags h
  constructor
  · intro h0
    simp [openRecv, h0]
  · intro h0
    simp [openRecv, h0]

theorem open_zero_handle_eio_witness :
    ((some 0 : Option Nat).getD 0 = 0 ∧
      openRecv "f" 3 (.openResponse none (some 0)) = (none, Status.EIO')) ∧
    ((some 7 : Option Nat).getD 0 ≠ 0 ∧
      openRecv "f" 3 (.openResponse none (some 7)) =
        (some { handle := 7, origName := "f", origFlags := 3 }, Status.OK)) :=
  ⟨⟨by decide, (open_zero_handle_eio "f" 3 (some 0)).1 (by decide)⟩,
   ⟨by decide, (open_zero_handle_eio "f" 3 (some 7)).2 (by decide)⟩⟩

/-- C9: evaluation of the Utimens request construction at a nil
timestamp.  `pbTime` dereferences its nil argument, so building the
request panics when either the atime or the mtime argument is absent; it
only succeeds (with both wire fields present) when both are non-nil. -/
theorem utimens_nil_time_panics :
    utimensRequest "f" none (some { unix := 0, nanosecond := 0 }) =
      .error .nilDereference ∧
    utimensRequest "f" (some { unix := 1, nanosecond := 2 }) none =
      .error .nilDereference ∧
    utimensRequest "f" (some { unix := 1, nanosecond := 2 })
        (some { unix := 3, nanosecond := 4 }) =
      .ok { name := some "f", atime := some { sec := some 1, nsec := some 2 },
            mtime := some { sec := some 3, nsec := some 4 } } :=
  ⟨rfl, rfl, rfl⟩

/-- C10: GetAttr on a non-root name relays an AttrRequest, and a
well-typed AttrResponse with no Error record but a missing attribute
payload yields the I/O-error status and no attribute. -/
theorem getattr_nil_attr_eio :
    ∀ name : String, name ≠ "" →
      getAttrAction name = GetAttrAction.sendAttrRequest name ∧
      getAttrRecv (.attrResponse none none) = (none, Status.EIO') := by
  intro name hne
  constructor
  · unfold getAttrAction
    rw [if_neg hne]
  · rfl

theorem getattr_nil_attr_eio_witness :
    ("a" : String) ≠ "" ∧
    getAttrAction "a" = GetAttrAction.sendAttrRequest "a" ∧
    getAttrRecv (.attrResponse none none) = (none, Status.EIO') :=
  ⟨by decide, (getattr_nil_attr_eio "a" (by decide)).1,
   (getattr_nil_attr_eio "a" (by decide)).2⟩
